import Mathlib

/-!
Shallow embedding of the tiff-poc viewer (React + UTIF multi-page TIFF viewer).

The repository has two viewer components sharing the same load/render/navigation
logic: `ImageView`/`ImageViewRef` (zoom buttons, ROI rectangles) and
`ImageViewMag` (magnifier loupe).  The embedding below models:

* the page-render pipeline `renderCurrentPage` (dimension resolution with the
  t256/t257 tag fallback, RGBA-length validation, canvas resize + blit, the
  catch/finally bookkeeping of `error`, `renderTime` and `loading`);
* the navigation functions `goToNextPage` / `goToPrevPage`;
* the zoom model `zoomIn` / `zoomOut` / `resetZoom`;
* the magnifier: `updateMagnifier`'s clamped 50x50 source region, the loupe
  placement computed in `handleMouseMove`, and the `toggleZoom` /
  `handleMouseEnter` / `handleMouseLeave` state machine;
* the static `rectangleCoordinates` region-of-interest set.

JavaScript numbers that are only ever integers in the code (page indices,
canvas dimensions, byte lengths) are modelled as `Int`; pointer coordinates,
scroll offsets and the zoom factor, which can be fractional, are modelled as
`Rat`.  `undefined` is modelled as `Option.none`.  The opaque UTIF library
boundary (`UTIF.decodeImage` / `UTIF.toRGBA8`) is a parameter: the pipeline
takes the decoded page descriptor and the RGBA-expansion function as inputs.
-/

/-- Raw RGBA byte data (the `Uint8Array` returned by `UTIF.toRGBA8`). -/
abbrev Bytes := List Nat

/-- A TIFF tag value as probed by the code: `Array.isArray(pageIfd.t256)`
distinguishes an array value from a scalar one. -/
inductive TagVal where
  | scalar (n : Int)
  | arr (l : List Int)
  deriving DecidableEq, Repr

/-- The fields of a decoded page descriptor (`pageIfd`) that the render
pipeline reads after `UTIF.decodeImage`: the declared `width`/`height` and the
raw tags `t256` (ImageWidth) and `t257` (ImageLength).  `none` models a field
that is `undefined` in JavaScript. -/
structure PageIfd where
  width : Option Int
  height : Option Int
  t256 : Option TagVal
  t257 : Option TagVal
  deriving DecidableEq, Repr

/-- JavaScript truthiness of an optional number: `undefined` and `0` are falsy
(`if (!width) ...`). -/
def numTruthy : Option Int → Bool
  | none => false
  | some n => n != 0

/-- The fallback expression
`pageIfd.t256 ? (Array.isArray(pageIfd.t256) ? pageIfd.t256[0] : pageIfd.t256) : 0`.
An absent tag yields `0`; an array tag is always truthy and yields its first
element (`undefined` when the array is empty); a scalar tag yields itself
(a scalar `0` is falsy so the ternary also yields `0`). -/
def tagFallback : Option TagVal → Option Int
  | none => some 0
  | some (TagVal.scalar n) => some n
  | some (TagVal.arr l) => l.head?

/-- Dimension resolution as performed by the code:
`let width = pageIfd.width; if (!width) width = <tagFallback of t256>;`. -/
def resolveDim (declared : Option Int) (tag : Option TagVal) : Option Int :=
  if numTruthy declared then declared else tagFallback tag

/-- The final validation `!width || !height || width <= 0 || height <= 0`
passes a single dimension exactly when it is a defined, strictly positive
number. -/
def dimValid : Option Int → Bool
  | none => false
  | some n => decide (0 < n)

/-- How JavaScript template literals print a possibly-undefined number, for the
`Invalid image dimensions: ${width}x${height}` message. -/
def jsShow : Option Int → String
  | none => "undefined"
  | some n => toString n

/-- The error message thrown on dimension-validation failure. -/
def dimErrMsg (w h : Option Int) : String :=
  "Invalid image dimensions: " ++ jsShow w ++ "x" ++ jsShow h

/-- The target raster surface (the main `<canvas>`): width, height and the
RGBA backing store. -/
structure Surface where
  width : Int
  height : Int
  pixels : Bytes
  deriving DecidableEq, Repr

/-- Assigning `canvas.width` / `canvas.height` resets the canvas backing store
to transparent black (all-zero RGBA bytes) at the new size. -/
def clearedSurface (w h : Int) : Surface :=
  { width := w, height := h, pixels := List.replicate (w * h * 4).toNat 0 }

/-- The component state of the magnifier viewer (`ImageViewMag`): the
`useState` fields `loading`, `error`, `renderTime`, `currentPage`,
`totalPages`, `showMagnifier`, `mousePos`, `zoomActive`, plus the mutable
main-canvas surface and the loupe canvas content.  `totalPages` equals
`tiffPages.length` (they are set together in `loadTiff`).  `loupeContent`
records the source-region origin last drawn into the loupe canvas by
`updateMagnifier` (`none` before any draw). -/
structure ViewerState where
  loading : Bool
  error : Option String
  renderTime : Option String
  currentPage : Int
  totalPages : Int
  surface : Surface
  zoomActive : Bool
  showMagnifier : Bool
  mousePos : Rat × Rat
  loupeContent : Option (Rat × Rat)
  deriving DecidableEq, Repr

/-- The `Page {current+1}/{total} | Render time: {ms}ms` display string built
in the `finally` block; `elapsed` stands for `(endTime - startTime).toFixed(2)`. -/
def renderTimeMsg (currentPage totalPages : Int) (elapsed : String) : String :=
  "Page " ++ toString (currentPage + 1) ++ "/" ++ toString totalPages ++
    " | Render time: " ++ elapsed ++ "ms"

/-- The body of `renderCurrentPage` for the current page descriptor, with the
canvas and its 2d context present.  `toRGBA8fn` is the opaque
`UTIF.toRGBA8` boundary (`none` models a call returning `undefined`);
`elapsed` is the wall-clock measurement string.  The function follows the
source order: resolve dimensions, validate (throw `Invalid image dimensions`),
call `toRGBA8`, resize the canvas (which clears it), validate the RGBA length
(throw `Invalid RGBA data generated`), blit; the `catch` records the thrown
message in `error`; the `finally` always records `renderTime` and clears
`loading`. -/
def renderCurrentPage (page : PageIfd) (toRGBA8fn : PageIfd → Option Bytes)
    (elapsed : String) (s : ViewerState) : ViewerState :=
  let w := resolveDim page.width page.t256
  let h := resolveDim page.height page.t257
  let afterTry : ViewerState :=
    if dimValid w && dimValid h then
      let wv := w.getD 0
      let hv := h.getD 0
      let rgba := toRGBA8fn page
      let resized : ViewerState := { s with surface := clearedSurface wv hv }
      match rgba with
      | none => { resized with error := some "Invalid RGBA data generated" }
      | some data =>
        if (data.length : Int) < wv * hv * 4 then
          { resized with error := some "Invalid RGBA data generated" }
        else
          { resized with surface :=
              { width := wv, height := hv,
                pixels := data.take (wv * hv * 4).toNat } }
    else
      { s with error := some (dimErrMsg w h) }
  { afterTry with
    renderTime := some (renderTimeMsg s.currentPage s.totalPages elapsed),
    loading := false }

/-- `goToNextPage`: increment only when `currentPage < totalPages - 1`. -/
def goToNextPage (s : ViewerState) : ViewerState :=
  if s.currentPage < s.totalPages - 1 then
    { s with currentPage := s.currentPage + 1 }
  else s

/-- `goToPrevPage`: decrement only when `currentPage > 0`. -/
def goToPrevPage (s : ViewerState) : ViewerState :=
  if s.currentPage > 0 then
    { s with currentPage := s.currentPage - 1 }
  else s

/-- `zoomIn`: `setZoomLevel(prev => Math.min(prev + 0.25, 5))`. -/
def zoomIn (z : Rat) : Rat := min (z + 1/4) 5

/-- `zoomOut`: `setZoomLevel(prev => Math.max(prev - 0.25, 0.25))`. -/
def zoomOut (z : Rat) : Rat := max (z - 1/4) (1/4)

/-- `resetZoom`: `setZoomLevel(1)`. -/
def resetZoom (_ : Rat) : Rat := 1

/-- One user action on the zoom model. -/
inductive ZoomOp where
  | zin
  | zout
  | zreset
  deriving DecidableEq, Repr

/-- Apply one zoom action to the current factor. -/
def applyZoom (z : Rat) : ZoomOp → Rat
  | ZoomOp.zin => zoomIn z
  | ZoomOp.zout => zoomOut z
  | ZoomOp.zreset => resetZoom z

/-- Run a sequence of zoom actions from the initial factor
(`useState(1)`). -/
def runZoom (ops : List ZoomOp) : Rat := ops.foldl applyZoom 1

/-- The source-region origin clamped by `updateMagnifier` before
`loupeCtx.drawImage`: with `sourceDim = 50`,
`Math.max(0, Math.min(x - sourceDim / 2, mainCanvas.width - sourceDim))` and
the analogous expression for `y`; `w`, `h` are the main canvas dimensions. -/
def updateMagnifier (x y : Rat) (w h : Int) : Rat × Rat :=
  let sourceDim : Rat := 50
  (max 0 (min (x - sourceDim / 2) ((w : Rat) - sourceDim)),
   max 0 (min (y - sourceDim / 2) ((h : Rat) - sourceDim)))

/-- The loupe placement computed in `handleMouseMove`: start centered
horizontally above the cursor with a 20px gap
(`x - magnifierWidth/2`, `y - magnifierHeight - 20` with a 200x200 loupe),
clamp the left edge to `scrollLeft`, then the right edge to
`rect.width + scrollLeft - magnifierWidth`, and flip below the cursor
(`y + 20`) when the top would be above `scrollTop`. -/
def loupePos (x y scrollLeft scrollTop rectWidth : Rat) : Rat × Rat :=
  let magnifierWidth : Rat := 200
  let magnifierHeight : Rat := 200
  let mx0 := x - magnifierWidth / 2
  let my0 := y - magnifierHeight - 20
  let mx1 := if mx0 < scrollLeft then scrollLeft else mx0
  let mx2 := if mx1 + magnifierWidth > rectWidth + scrollLeft
             then rectWidth + scrollLeft - magnifierWidth else mx1
  let my1 := if my0 < scrollTop then y + 20 else my0
  (mx2, my1)

/-- `handleMouseEnter`: show the loupe only when the magnifier is enabled. -/
def handleMouseEnter (s : ViewerState) : ViewerState :=
  if s.zoomActive then { s with showMagnifier := true } else s

/-- `handleMouseLeave`: always hide the loupe. -/
def handleMouseLeave (s : ViewerState) : ViewerState :=
  { s with showMagnifier := false }

/-- `handleMouseMove`: a no-op unless `zoomActive`; otherwise compute the
loupe placement from the cursor position and the container scroll offsets,
store it in `mousePos`, and redraw the loupe content via `updateMagnifier`. -/
def handleMouseMove (x y scrollLeft scrollTop rectWidth : Rat)
    (s : ViewerState) : ViewerState :=
  if s.zoomActive then
    { s with
      mousePos := loupePos x y scrollLeft scrollTop rectWidth,
      loupeContent := some (updateMagnifier x y s.surface.width s.surface.height) }
  else s

/-- `toggleZoom`: flip `zoomActive`; when the new state is off, also force
`showMagnifier` off. -/
def toggleZoom (s : ViewerState) : ViewerState :=
  let newState := !s.zoomActive
  if newState then { s with zoomActive := newState }
  else { s with zoomActive := newState, showMagnifier := false }

/-- The loupe element is rendered only under `showMagnifier && zoomActive`. -/
def loupeVisible (s : ViewerState) : Bool :=
  s.showMagnifier && s.zoomActive

/-- The events the magnifier viewer reacts to after loading.  A `render`
event carries the decoded page descriptor, the opaque `UTIF.toRGBA8`
boundary, and the elapsed-time string. -/
inductive Event where
  | next
  | prev
  | render (page : PageIfd) (toRGBA8fn : PageIfd → Option Bytes) (elapsed : String)
  | toggleZoom
  | mouseEnter
  | mouseLeave
  | mouseMove (x y scrollLeft scrollTop rectWidth : Rat)

/-- Pointer events (enter, leave, move), as opposed to navigation, render and
toggle events. -/
def Event.isPointer : Event → Bool
  | Event.mouseEnter => true
  | Event.mouseLeave => true
  | Event.mouseMove _ _ _ _ _ => true
  | _ => false

/-- Dispatch one event to its handler. -/
def step (s : ViewerState) : Event → ViewerState
  | Event.next => goToNextPage s
  | Event.prev => goToPrevPage s
  | Event.render page f elapsed => renderCurrentPage page f elapsed s
  | Event.toggleZoom => toggleZoom s
  | Event.mouseEnter => handleMouseEnter s
  | Event.mouseLeave => handleMouseLeave s
  | Event.mouseMove x y sl st rw => handleMouseMove x y sl st rw s

/-- The state updates `loadTiff` performs before awaiting the fetch:
`setLoading(true); setError(null)`. -/
def loadTiffEntry (s : ViewerState) : ViewerState :=
  { s with loading := true, error := none }

/-- The whole `loadTiff` operation, parametrised by the fetch outcome and the
number of pages `UTIF.decode` returns: clear the error at entry, then either
throw `Failed to fetch image`, throw `No pages found in TIFF file`, or store
the page count and reset `currentPage` to 0; `finally` clears `loading`. -/
def loadTiff (fetchOk : Bool) (numPages : Nat) (s : ViewerState) : ViewerState :=
  let s0 := loadTiffEntry s
  let s1 :=
    if !fetchOk then { s0 with error := some "Failed to fetch image" }
    else if numPages == 0 then { s0 with error := some "No pages found in TIFF file" }
    else { s0 with totalPages := (numPages : Int), currentPage := 0 }
  { s1 with loading := false }

/-- Whether a `renderCurrentPage` invocation reaches the success path: both
resolved dimensions valid and the RGBA data present with length at least
`width * height * 4`. -/
def renderSucceeds (page : PageIfd) (toRGBA8fn : PageIfd → Option Bytes) : Bool :=
  let w := resolveDim page.width page.t256
  let h := resolveDim page.height page.t257
  dimValid w && dimValid h &&
    match toRGBA8fn page with
    | none => false
    | some data => decide ((w.getD 0) * (h.getD 0) * 4 ≤ (data.length : Int))

/-- A 2D integer point of the ROI configuration. -/
structure Point where
  x : Int
  y : Int
  deriving DecidableEq, Repr

/-- One entry of `rectangleCoordinates`: id, top-left and bottom-right
corners in unscaled page pixel space. -/
structure RectROI where
  id : Nat
  topLeft : Point
  bottomRight : Point
  deriving DecidableEq, Repr

/-- The static region-of-interest set.  In the source it is held in a
`useState` whose setter is never destructured
(`const [rectangleCoordinates] = useState([...])`), so no operation can add,
remove or mutate an entry; the embedding is accordingly a constant. -/
def rectangleCoordinates : List RectROI :=
  [ { id := 1, topLeft := { x := 50, y := 50 }, bottomRight := { x := 150, y := 150 } },
    { id := 2, topLeft := { x := 200, y := 50 }, bottomRight := { x := 300, y := 150 } },
    { id := 3, topLeft := { x := 50, y := 200 }, bottomRight := { x := 150, y := 300 } },
    { id := 4, topLeft := { x := 200, y := 200 }, bottomRight := { x := 300, y := 300 } } ]

/-- Two ROI rectangles overlap when their closed point sets intersect. -/
def rectOverlaps (a b : RectROI) : Bool :=
  a.topLeft.x ≤ b.bottomRight.x && b.topLeft.x ≤ a.bottomRight.x &&
  a.topLeft.y ≤ b.bottomRight.y && b.topLeft.y ≤ a.bottomRight.y

/-- The condition under which the RGBA validation
`!rgbaData || rgbaData.length < width * height * 4` throws. -/
def rgbaInvalid (rgba : Option Bytes) (w h : Int) : Bool :=
  match rgba with
  | none => true
  | some data => decide ((data.length : Int) < w * h * 4)

/-- The dimension-resolution rule in the words of the amended claim: the
declared dimension is used when it is present and non-zero; otherwise the tag
supplies the value — the first element when the tag value is a sequence, the
value itself when it is a scalar, and 0 when the tag is absent. -/
def specResolveDim (declared : Option Int) (tag : Option TagVal) : Option Int :=
  match declared with
  | some n =>
    if n = 0 then
      match tag with
      | none => some 0
      | some (TagVal.scalar m) => some m
      | some (TagVal.arr l) => l.head?
    else some n
  | none =>
    match tag with
    | none => some 0
    | some (TagVal.scalar m) => some m
    | some (TagVal.arr l) => l.head?

/-- A concrete post-load state used to exercise the pipeline: two pages, the
canvas currently holding a 3x3 frame of non-zero bytes. -/
def baseState : ViewerState :=
  { loading := false, error := none, renderTime := none,
    currentPage := 0, totalPages := 2,
    surface := { width := 3, height := 3, pixels := List.replicate 36 7 },
    zoomActive := false, showMagnifier := false,
    mousePos := (0, 0), loupeContent := none }

/-- A page whose RGBA expansion will come up short of `10 * 10 * 4` bytes. -/
def shortDataPage : PageIfd :=
  { width := some 10, height := some 10, t256 := none, t257 := none }

/-- A page with a declared (present) width of `0` and an ImageWidth tag of 3. -/
def zeroWidthPage : PageIfd :=
  { width := some 0, height := some 2, t256 := some (TagVal.scalar 3), t257 := none }

/-- A page whose width cannot be resolved: no declared width and an empty
ImageWidth tag array (its first element is `undefined`). -/
def badDimPage : PageIfd :=
  { width := none, height := some 5, t256 := some (TagVal.arr []), t257 := none }

/-- A small 2x2 page with declared dimensions. -/
def okPage : PageIfd :=
  { width := some 2, height := some 2, t256 := none, t257 := none }

/-- A state carrying a stale render error. -/
def errState : ViewerState := { baseState with error := some "boom" }

/-- A state with the magnifier enabled and the loupe showing. -/
def magOnState : ViewerState :=
  { baseState with zoomActive := true, showMagnifier := true }

theorem zoom_step_bounds (op : ZoomOp) (z : Rat) (h1 : 1/4 ≤ z) (h2 : z ≤ 5) :
    1/4 ≤ applyZoom z op ∧ applyZoom z op ≤ 5 := by
  cases op with
  | zin =>
    refine ⟨le_min (by linarith) (by norm_num), min_le_right _ _⟩
  | zout =>
    refine ⟨le_max_right _ _, max_le (by linarith) (by norm_num)⟩
  | zreset =>
    constructor <;> norm_num [applyZoom, resetZoom]

theorem zoom_foldl_bounds (ops : List ZoomOp) (z : Rat) (h1 : 1/4 ≤ z)
    (h2 : z ≤ 5) : 1/4 ≤ ops.foldl applyZoom z ∧ ops.foldl applyZoom z ≤ 5 := by
  induction ops generalizing z with
  | nil => exact ⟨h1, h2⟩
  | cons op ops ih =>
    have h := zoom_step_bounds op z h1 h2
    exact ih (applyZoom z op) h.1 h.2

/-- C3: starting from the initial zoom factor 1.0, any finite sequence of
zoomIn/zoomOut/reset operations keeps the factor inside [0.25, 5.0]; zoomIn
adds exactly 0.25 capped at 5.0, zoomOut subtracts exactly 0.25 floored at
0.25, and reset yields exactly 1.0. -/
theorem C3_zoom_invariant (ops : List ZoomOp) (z : Rat) :
    (1/4 ≤ runZoom ops ∧ runZoom ops ≤ 5)
    ∧ (z + 1/4 ≤ 5 → zoomIn z = z + 1/4)
    ∧ (5 ≤ z + 1/4 → zoomIn z = 5)
    ∧ (1/4 ≤ z - 1/4 → zoomOut z = z - 1/4)
    ∧ (z - 1/4 ≤ 1/4 → zoomOut z = 1/4)
    ∧ resetZoom z = 1 := by
  refine ⟨zoom_foldl_bounds ops 1 (by norm_num) (by norm_num),
    fun h => min_eq_left h, fun h => min_eq_right h,
    fun h => max_eq_left h, fun h => max_eq_right h, rfl⟩

/-- Witness for C3 at concrete inputs: one zoomIn from 2.0 gives 2.25, and a
zoomIn at 4.9 caps at 5.0. -/
theorem C3_zoom_invariant_witness :
    zoomIn 2 = 2 + 1/4 ∧ zoomIn (49/10) = 5 :=
  ⟨(C3_zoom_invariant [] 2).2.1 (by norm_num),
   (C3_zoom_invariant [] (49/10)).2.2.1 (by norm_num)⟩

/-- C4: for a state with a valid current index, `goToNextPage` increments by
exactly 1 below the last index and is a no-op at the last index;
`goToPrevPage` decrements by exactly 1 above 0 and is a no-op at 0; both
leave the index valid. -/
theorem C4_navigation (s : ViewerState) (h0 : 0 ≤ s.currentPage)
    (h1 : s.currentPage < s.totalPages) :
    (s.currentPage < s.totalPages - 1 →
      goToNextPage s = { s with currentPage := s.currentPage + 1 })
    ∧ (s.currentPage = s.totalPages - 1 → goToNextPage s = s)
    ∧ (0 < s.currentPage →
      goToPrevPage s = { s with currentPage := s.currentPage - 1 })
    ∧ (s.currentPage = 0 → goToPrevPage s = s)
    ∧ (0 ≤ (goToNextPage s).currentPage
        ∧ (goToNextPage s).currentPage < (goToNextPage s).totalPages)
    ∧ (0 ≤ (goToPrevPage s).currentPage
        ∧ (goToPrevPage s).currentPage < (goToPrevPage s).totalPages) := by
  refine ⟨fun h => by rw [goToNextPage, if_pos h],
    fun h => by rw [goToNextPage, if_neg (by omega)],
    fun h => by rw [goToPrevPage, if_pos h],
    fun h => by rw [goToPrevPage, if_neg (by omega)], ?_, ?_⟩
  · unfold goToNextPage
    split <;> (try dsimp) <;> omega
  · unfold goToPrevPage
    split <;> (try dsimp) <;> omega

/-- Witness for C4 at a concrete state: at page 0 of 2, previous is a no-op
and next lands on a valid index. -/
theorem C4_navigation_witness :
    goToPrevPage baseState = baseState
    ∧ (goToNextPage baseState).currentPage < (goToNextPage baseState).totalPages :=
  ⟨(C4_navigation baseState (by decide) (by decide)).2.2.2.1 rfl,
   (C4_navigation baseState (by decide) (by decide)).2.2.2.2.1.2⟩

/-- C8: every render invocation, on every success or failure path,
unconditionally clears the loading flag and records the
`Page {current+1}/{total} | Render time: {ms}ms` display string in its
finally block. -/
theorem C8_finally_bookkeeping (page : PageIfd) (f : PageIfd → Option Bytes)
    (elapsed : String) (s : ViewerState) :
    (renderCurrentPage page f elapsed s).loading = false
    ∧ (renderCurrentPage page f elapsed s).renderTime
        = some (renderTimeMsg s.currentPage s.totalPages elapsed) :=
  ⟨rfl, rfl⟩

/-- C10: the four configured region-of-interest rectangles carry ids 1–4 with
the configured corners, each has positive width and height, and they are
pairwise non-overlapping.  (The set is a constant of the embedding, as in the
source, where the `useState` holding it never exposes a setter.) -/
theorem C10_roi_invariants :
    rectangleCoordinates.length = 4
    ∧ rectangleCoordinates.map RectROI.id = [1, 2, 3, 4]
    ∧ (∀ r ∈ rectangleCoordinates,
        r.topLeft.x < r.bottomRight.x ∧ r.topLeft.y < r.bottomRight.y)
    ∧ rectangleCoordinates.Pairwise (fun a b => rectOverlaps a b = false) := by
  refine ⟨rfl, rfl, by decide, ?_⟩
  decide

/-- C1 counterexample: rendering `shortDataPage` over `baseState` with an RGBA
expansion of length 0 < 10*10*4 fails with the InvalidPixelData message, yet
the surface width has changed from 3 to 10: the surface is resized (and its
content cleared) before the pixel-data check, contrary to the claim. -/
theorem C1_counterexample :
    (renderCurrentPage shortDataPage (fun _ => some []) "1.00" baseState).error
      = some "Invalid RGBA data generated"
    ∧ baseState.surface.width = 3
    ∧ (renderCurrentPage shortDataPage (fun _ => some []) "1.00"
        baseState).surface.width = 10
    ∧ ¬ ((renderCurrentPage shortDataPage (fun _ => some []) "1.00"
        baseState).surface = baseState.surface) := by
  refine ⟨rfl, rfl, rfl, by decide⟩

/-- C1 (amended): when the resolved dimensions are valid but toRGBA8 yields no
data or fewer than width*height*4 bytes, the render fails with the
InvalidPixelData message and still clears the loading flag and records the
render time — but the target surface has by then been resized to the new
width x height with cleared content (the original no-resize part is refuted
by the counterexample). -/
theorem C1_invalid_pixel_data (page : PageIfd) (f : PageIfd → Option Bytes)
    (elapsed : String) (s : ViewerState)
    (hw : dimValid (resolveDim page.width page.t256) = true)
    (hh : dimValid (resolveDim page.height page.t257) = true)
    (hr : rgbaInvalid (f page) ((resolveDim page.width page.t256).getD 0)
            ((resolveDim page.height page.t257).getD 0) = true) :
    (renderCurrentPage page f elapsed s).error
      = some "Invalid RGBA data generated"
    ∧ (renderCurrentPage page f elapsed s).surface
      = clearedSurface ((resolveDim page.width page.t256).getD 0)
          ((resolveDim page.height page.t257).getD 0)
    ∧ (renderCurrentPage page f elapsed s).loading = false
    ∧ (renderCurrentPage page f elapsed s).renderTime
      = some (renderTimeMsg s.currentPage s.totalPages elapsed) := by
  have hwh : (dimValid (resolveDim page.width page.t256)
      && dimValid (resolveDim page.height page.t257)) = true := by
    simp [hw, hh]
  refine ⟨?_, ?_, rfl, rfl⟩
  · simp only [renderCurrentPage]
    rw [if_pos hwh]
    cases hfp : f page with
    | none => rfl
    | some data =>
      rw [hfp] at hr
      simp only [rgbaInvalid, decide_eq_true_eq] at hr
      simp [hr]
  · simp only [renderCurrentPage]
    rw [if_pos hwh]
    cases hfp : f page with
    | none => rfl
    | some data =>
      rw [hfp] at hr
      simp only [rgbaInvalid, decide_eq_true_eq] at hr
      simp [hr]

/-- Witness for C1 (amended) at a concrete input: the short-data render over
`baseState` reports InvalidPixelData and leaves a cleared 10x10 surface. -/
theorem C1_invalid_pixel_data_witness :
    (renderCurrentPage shortDataPage (fun _ => some []) "1.00" baseState).error
      = some "Invalid RGBA data generated"
    ∧ (renderCurrentPage shortDataPage (fun _ => some []) "1.00"
        baseState).surface
      = clearedSurface ((resolveDim shortDataPage.width shortDataPage.t256).getD 0)
          ((resolveDim shortDataPage.height shortDataPage.t257).getD 0)
    ∧ (renderCurrentPage shortDataPage (fun _ => some []) "1.00"
        baseState).loading = false
    ∧ (renderCurrentPage shortDataPage (fun _ => some []) "1.00"
        baseState).renderTime
      = some (renderTimeMsg baseState.currentPage baseState.totalPages "1.00") :=
  C1_invalid_pixel_data shortDataPage (fun _ => some []) "1.00" baseState
    (by decide) (by decide) (by decide)

/-- C2 counterexample: on a 30x30 surface the pointer at (15, 15) lies over
the surface, yet the clamped 50x50 source region starts at (0, 0) and extends
to 50 > 30, outside the surface bounds. -/
theorem C2_counterexample :
    updateMagnifier 15 15 30 30 = (0, 0)
    ∧ ¬ ((updateMagnifier 15 15 30 30).1 + 50 ≤ ((30 : Int) : Rat)) := by
  constructor <;> norm_num [updateMagnifier]

/-- C2 (amended): whenever the surface is at least 50x50, the source region
extracted by `updateMagnifier` is clamped to lie entirely within the surface
bounds, for every pointer position — in particular within 25px of any edge. -/
theorem C2_source_region_clamped (x y : Rat) (w h : Int)
    (hw : (50 : Int) ≤ w) (hh : (50 : Int) ≤ h) :
    0 ≤ (updateMagnifier x y w h).1
    ∧ (updateMagnifier x y w h).1 + 50 ≤ (w : Rat)
    ∧ 0 ≤ (updateMagnifier x y w h).2
    ∧ (updateMagnifier x y w h).2 + 50 ≤ (h : Rat) := by
  have hw' : (50 : Rat) ≤ (w : Rat) := by exact_mod_cast hw
  have hh' : (50 : Rat) ≤ (h : Rat) := by exact_mod_cast hh
  unfold updateMagnifier
  refine ⟨le_max_left _ _, ?_, le_max_left _ _, ?_⟩
  · have hub : max 0 (min (x - 50 / 2) ((w : Rat) - 50)) ≤ (w : Rat) - 50 :=
      max_le (by linarith) (min_le_right _ _)
    dsimp only
    linarith
  · have hub : max 0 (min (y - 50 / 2) ((h : Rat) - 50)) ≤ (h : Rat) - 50 :=
      max_le (by linarith) (min_le_right _ _)
    dsimp only
    linarith

/-- Witness for C2 (amended): the corner pointer (0, 0) on a 300x150 surface
gets a region inside the bounds. -/
theorem C2_source_region_clamped_witness :
    0 ≤ (updateMagnifier 0 0 300 150).1
    ∧ (updateMagnifier 0 0 300 150).1 + 50 ≤ ((300 : Int) : Rat)
    ∧ 0 ≤ (updateMagnifier 0 0 300 150).2
    ∧ (updateMagnifier 0 0 300 150).2 + 50 ≤ ((150 : Int) : Rat) :=
  C2_source_region_clamped 0 0 300 150 (by norm_num) (by norm_num)

/-- C5 counterexample: `zeroWidthPage` declares width 0 (a present declared
dimension) while its t256 tag holds 3; the claim mandates taking the declared
0 and failing with InvalidDimensions, but the pipeline falls back to the tag,
resolves width 3 and renders the page successfully. -/
theorem C5_counterexample :
    zeroWidthPage.width = some 0
    ∧ resolveDim zeroWidthPage.width zeroWidthPage.t256 = some 3
    ∧ (renderCurrentPage zeroWidthPage (fun _ => some (List.replicate 24 1))
        "1.00" baseState).error = none
    ∧ (renderCurrentPage zeroWidthPage (fun _ => some (List.replicate 24 1))
        "1.00" baseState).surface.width = 3 :=
  ⟨rfl, rfl, rfl, rfl⟩

/-- C5 (amended): the pipeline takes a declared dimension only when it is
present and non-zero (JavaScript truthiness), otherwise falls back to the
t256/t257 tag — first element when the tag value is a sequence, the value
itself when scalar; when a resolved dimension is still missing or
non-positive the render fails with the InvalidDimensions message, leaves the
surface untouched, and its outcome is independent of the pixel-expansion
function (the expansion is never consulted). -/
theorem C5_dim_fallback (d : Option Int) (t : Option TagVal) (page : PageIfd)
    (f g : PageIfd → Option Bytes) (elapsed : String) (s : ViewerState)
    (hbad : (dimValid (resolveDim page.width page.t256)
        && dimValid (resolveDim page.height page.t257)) = false) :
    resolveDim d t = specResolveDim d t
    ∧ renderCurrentPage page f elapsed s = renderCurrentPage page g elapsed s
    ∧ (renderCurrentPage page f elapsed s).error
      = some (dimErrMsg (resolveDim page.width page.t256)
          (resolveDim page.height page.t257))
    ∧ (renderCurrentPage page f elapsed s).surface = s.surface := by
  have hbad' : ¬ ((dimValid (resolveDim page.width page.t256)
      && dimValid (resolveDim page.height page.t257)) = true) := by
    rw [hbad]
    exact Bool.false_ne_true
  refine ⟨?_, ?_, ?_, ?_⟩
  · cases d with
    | none =>
      cases t with
      | none => rfl
      | some tv => cases tv <;> rfl
    | some n =>
      by_cases hn : n = 0
      · subst hn
        cases t with
        | none => rfl
        | some tv => cases tv <;> rfl
      · simp [resolveDim, specResolveDim, numTruthy, hn]
  · simp only [renderCurrentPage]
    rw [if_neg hbad', if_neg hbad']
  · simp only [renderCurrentPage]
    rw [if_neg hbad']
  · simp only [renderCurrentPage]
    rw [if_neg hbad']

/-- Witness for C5 (amended) at a concrete input: `badDimPage` (no declared
width, empty t256 array) fails with the InvalidDimensions message and leaves
the surface untouched. -/
theorem C5_dim_fallback_witness :
    resolveDim none none = specResolveDim none none
    ∧ renderCurrentPage badDimPage (fun _ => some (List.replicate 100 1)) "1.00"
        baseState
      = renderCurrentPage badDimPage (fun _ => none) "1.00" baseState
    ∧ (renderCurrentPage badDimPage (fun _ => some (List.replicate 100 1))
        "1.00" baseState).error
      = some (dimErrMsg (resolveDim badDimPage.width badDimPage.t256)
          (resolveDim badDimPage.height badDimPage.t257))
    ∧ (renderCurrentPage badDimPage (fun _ => some (List.replicate 100 1))
        "1.00" baseState).surface = baseState.surface :=
  C5_dim_fallback none none badDimPage (fun _ => some (List.replicate 100 1))
    (fun _ => none) "1.00" baseState (by decide)

theorem pointer_steps_frozen (evs : List Event) (s : ViewerState)
    (hp : ∀ e ∈ evs, e.isPointer = true)
    (hz : s.zoomActive = false) (hm : s.showMagnifier = false) :
    (evs.foldl step s).zoomActive = false
    ∧ (evs.foldl step s).showMagnifier = false
    ∧ (evs.foldl step s).loupeContent = s.loupeContent
    ∧ (evs.foldl step s).mousePos = s.mousePos := by
  induction evs generalizing s with
  | nil => exact ⟨hz, hm, rfl, rfl⟩
  | cons e evs ih =>
    have hpe : e.isPointer = true := hp e (List.mem_cons_self _ _)
    have hptail : ∀ e ∈ evs, e.isPointer = true :=
      fun e he => hp e (List.mem_cons_of_mem _ he)
    cases e with
    | mouseEnter =>
      have hstep : step s Event.mouseEnter = s := by
        simp [step, handleMouseEnter, hz]
      rw [List.foldl_cons, hstep]
      exact ih s hptail hz hm
    | mouseLeave =>
      rw [List.foldl_cons]
      exact ih (step s Event.mouseLeave) hptail hz rfl
    | mouseMove x y sl st rw =>
      have hstep : step s (Event.mouseMove x y sl st rw) = s := by
        simp [step, handleMouseMove, hz]
      rw [List.foldl_cons, hstep]
      exact ih s hptail hz hm
    | next => simp [Event.isPointer] at hpe
    | prev => simp [Event.isPointer] at hpe
    | render page f elapsed => simp [Event.isPointer] at hpe
    | toggleZoom => simp [Event.isPointer] at hpe

/-- C6: toggling the magnifier off while it is active immediately forces
`zoomActive` and `showMagnifier` to false, and any subsequent sequence of
pointer events (enter, leave, move) neither shows the loupe nor updates its
content or position until a further toggle. -/
theorem C6_toggle_off_suppresses (s : ViewerState) (ha : s.zoomActive = true)
    (evs : List Event) (hp : ∀ e ∈ evs, e.isPointer = true) :
    (toggleZoom s).zoomActive = false
    ∧ (toggleZoom s).showMagnifier = false
    ∧ (evs.foldl step (toggleZoom s)).showMagnifier = false
    ∧ (evs.foldl step (toggleZoom s)).loupeContent = (toggleZoom s).loupeContent
    ∧ (evs.foldl step (toggleZoom s)).mousePos = (toggleZoom s).mousePos
    ∧ loupeVisible (evs.foldl step (toggleZoom s)) = false := by
  have h1 : (toggleZoom s).zoomActive = false := by
    simp [toggleZoom, ha]
  have h2 : (toggleZoom s).showMagnifier = false := by
    simp [toggleZoom, ha]
  have h := pointer_steps_frozen evs (toggleZoom s) hp h1 h2
  exact ⟨h1, h2, h.2.1, h.2.2.1, h.2.2.2, by simp [loupeVisible, h.2.1]⟩

/-- Witness for C6: from a state with the loupe showing, toggling off and then
entering, moving and leaving with the pointer keeps the loupe hidden and its
content untouched. -/
theorem C6_toggle_off_suppresses_witness :
    (toggleZoom magOnState).zoomActive = false
    ∧ (toggleZoom magOnState).showMagnifier = false
    ∧ (([Event.mouseEnter, Event.mouseMove 10 20 0 0 300,
        Event.mouseLeave]).foldl step (toggleZoom magOnState)).showMagnifier
      = false
    ∧ (([Event.mouseEnter, Event.mouseMove 10 20 0 0 300,
        Event.mouseLeave]).foldl step (toggleZoom magOnState)).loupeContent
      = (toggleZoom magOnState).loupeContent
    ∧ (([Event.mouseEnter, Event.mouseMove 10 20 0 0 300,
        Event.mouseLeave]).foldl step (toggleZoom magOnState)).mousePos
      = (toggleZoom magOnState).mousePos
    ∧ loupeVisible (([Event.mouseEnter, Event.mouseMove 10 20 0 0 300,
        Event.mouseLeave]).foldl step (toggleZoom magOnState)) = false :=
  C6_toggle_off_suppresses magOnState rfl
    [Event.mouseEnter, Event.mouseMove 10 20 0 0 300, Event.mouseLeave]
    (by intro e he
        simp only [List.mem_cons, List.not_mem_nil, or_false] at he
        rcases he with h | h | h <;> subst h <;> rfl)

/-- C7 counterexample: on a canvas only 150 wide (an unscaled 150x150 page),
an active-magnifier pointer move at x = 10 clamps the loupe's horizontal
position to 150 − 200 = −50, left of the scrollable viewport's left edge
(scrollLeft = 0): the claimed containment in the viewport fails when the
viewport is narrower than the 200px loupe. -/
theorem C7_counterexample :
    (loupePos 10 300 0 0 150).1 = -50
    ∧ ¬ ((0 : Rat) ≤ (loupePos 10 300 0 0 150).1)
    ∧ ¬ ((0 : Rat) ≤ (loupePos 10 300 0 0 150).1
        ∧ (loupePos 10 300 0 0 150).1 + 200 ≤ 0 + 150) := by
  refine ⟨by norm_num [loupePos], by norm_num [loupePos], ?_⟩
  intro h
  have h1 := h.1
  norm_num [loupePos] at h1

/-- C7 (amended): while the magnifier is active, a pointer move stores the
loupe placement computed by `loupePos`: vertically 20px above the cursor
(top = y − 220 for the 200-high loupe) when that top is not above the
scrolled-in-view top edge, otherwise 20px below the cursor; horizontally
centered (x − 100) when that fits the viewport; and the horizontal clamping
keeps the loupe within the scrollable viewport whenever the viewport is at
least as wide as the 200px loupe (on a narrower viewport the right-edge
clamp places it left of the viewport, see the counterexample). -/
theorem C7_loupe_placement (x y scrollLeft scrollTop rectWidth : Rat)
    (s : ViewerState) (ha : s.zoomActive = true) :
    (handleMouseMove x y scrollLeft scrollTop rectWidth s).mousePos
      = loupePos x y scrollLeft scrollTop rectWidth
    ∧ (scrollTop ≤ y - 220 →
        (loupePos x y scrollLeft scrollTop rectWidth).2 = y - 220)
    ∧ (y - 220 < scrollTop →
        (loupePos x y scrollLeft scrollTop rectWidth).2 = y + 20)
    ∧ (scrollLeft ≤ x - 100 → x + 100 ≤ scrollLeft + rectWidth →
        (loupePos x y scrollLeft scrollTop rectWidth).1 = x - 100)
    ∧ (200 ≤ rectWidth →
        scrollLeft ≤ (loupePos x y scrollLeft scrollTop rectWidth).1
        ∧ (loupePos x y scrollLeft scrollTop rectWidth).1 + 200
          ≤ scrollLeft + rectWidth) := by
  refine ⟨by simp [handleMouseMove, ha], ?_, ?_, ?_, ?_⟩
  · intro h
    unfold loupePos
    dsimp only
    rw [if_neg (by linarith)]
    ring
  · intro h
    unfold loupePos
    dsimp only
    rw [if_pos (by linarith)]
  · intro h1 h2
    unfold loupePos
    dsimp only
    rw [if_neg (not_lt.mpr (show scrollLeft ≤ x - 200 / 2 by linarith))]
    rw [if_neg (not_lt.mpr
      (show x - 200 / 2 + 200 ≤ rectWidth + scrollLeft by linarith))]
    ring
  · intro h
    unfold loupePos
    dsimp only
    constructor
    · split
      · split
        · linarith
        · linarith
      · split
        · linarith
        · next h1 h2 =>
          push_neg at h1
          linarith
    · split
      · split
        · linarith
        · next h1 h2 =>
          push_neg at h2
          linarith
      · split
        · linarith
        · next h1 h2 =>
          push_neg at h2
          linarith

/-- Witness for C7 at concrete inputs: active magnifier, pointer at
(100, 300) in a 400-wide unscrolled viewport. -/
theorem C7_loupe_placement_witness :
    (handleMouseMove 100 300 0 0 400 magOnState).mousePos = loupePos 100 300 0 0 400
    ∧ ((0 : Rat) ≤ (300 : Rat) - 220 →
        (loupePos 100 300 0 0 400).2 = (300 : Rat) - 220)
    ∧ ((300 : Rat) - 220 < 0 → (loupePos 100 300 0 0 400).2 = 300 + 20)
    ∧ ((0 : Rat) ≤ (100 : Rat) - 100 → (100 : Rat) + 100 ≤ 0 + 400 →
        (loupePos 100 300 0 0 400).1 = (100 : Rat) - 100)
    ∧ ((200 : Rat) ≤ 400 →
        (0 : Rat) ≤ (loupePos 100 300 0 0 400).1
        ∧ (loupePos 100 300 0 0 400).1 + 200 ≤ 0 + 400) :=
  C7_loupe_placement 100 300 0 0 400 magOnState rfl

theorem render_error_preserved_or_set (page : PageIfd)
    (f : PageIfd → Option Bytes) (elapsed : String) (s : ViewerState) :
    (renderCurrentPage page f elapsed s).error = s.error
    ∨ (renderCurrentPage page f elapsed s).error
        = some "Invalid RGBA data generated"
    ∨ (renderCurrentPage page f elapsed s).error
        = some (dimErrMsg (resolveDim page.width page.t256)
            (resolveDim page.height page.t257)) := by
  simp only [renderCurrentPage]
  split
  · split
    · right; left; rfl
    · split
      · right; left; rfl
      · left; rfl
  · right; right; rfl

theorem step_error_ne_none (s : ViewerState) (e : Event) (h : s.error ≠ none) :
    (step s e).error ≠ none := by
  cases e with
  | next =>
    show (goToNextPage s).error ≠ none
    unfold goToNextPage
    split <;> exact h
  | prev =>
    show (goToPrevPage s).error ≠ none
    unfold goToPrevPage
    split <;> exact h
  | render page f elapsed =>
    show (renderCurrentPage page f elapsed s).error ≠ none
    rcases render_error_preserved_or_set page f elapsed s with h1 | h1 | h1 <;>
      rw [h1] <;> simp_all
  | toggleZoom =>
    show (toggleZoom s).error ≠ none
    simp only [toggleZoom]
    split <;> exact h
  | mouseEnter =>
    show (handleMouseEnter s).error ≠ none
    unfold handleMouseEnter
    split <;> exact h
  | mouseLeave => exact h
  | mouseMove x y sl st rw =>
    show (handleMouseMove x y sl st rw s).error ≠ none
    unfold handleMouseMove
    split <;> exact h

theorem foldl_error_ne_none (evs : List Event) (s : ViewerState)
    (h : s.error ≠ none) : ((evs.foldl step s)).error ≠ none := by
  induction evs generalizing s with
  | nil => exact h
  | cons e evs ih => exact ih (step s e) (step_error_ne_none s e h)

theorem render_success_keeps_error (page : PageIfd)
    (f : PageIfd → Option Bytes) (elapsed : String) (s : ViewerState)
    (hsucc : renderSucceeds page f = true) :
    (renderCurrentPage page f elapsed s).error = s.error := by
  simp only [renderSucceeds] at hsucc
  rw [Bool.and_eq_true] at hsucc
  obtain ⟨hwh, hdata⟩ := hsucc
  simp only [renderCurrentPage]
  rw [if_pos hwh]
  cases hfp : f page with
  | none => rw [hfp] at hdata; simp at hdata
  | some data =>
    rw [hfp] at hdata
    simp only [decide_eq_true_eq] at hdata
    simp [not_lt.mpr hdata]

/-- C9: once the error state holds a message, no sequence of navigation,
render, toggle or pointer events ever clears it — in particular a later
successful render leaves the stale message in place verbatim — and the error
is reset to null exactly by the state updates at the beginning of the load
operation. -/
theorem C9_error_sticky (s : ViewerState) (m : String)
    (hm : s.error = some m) :
    (∀ evs : List Event, (evs.foldl step s).error ≠ none)
    ∧ (∀ (page : PageIfd) (f : PageIfd → Option Bytes) (elapsed : String),
        renderSucceeds page f = true →
        (renderCurrentPage page f elapsed s).error = some m)
    ∧ (loadTiffEntry s).error = none := by
  refine ⟨fun evs => foldl_error_ne_none evs s (by rw [hm]; simp), ?_, rfl⟩
  intro page f elapsed hsucc
  rw [render_success_keeps_error page f elapsed s hsucc, hm]

/-- Witness for C9: from a state with error message boom, a navigation step
leaves a non-null error, a successful 2x2 render keeps boom verbatim, and the
load-entry updates clear the error. -/
theorem C9_error_sticky_witness :
    (([Event.next]).foldl step errState).error ≠ none
    ∧ (renderCurrentPage okPage (fun _ => some (List.replicate 16 1)) "1.00"
        errState).error = some "boom"
    ∧ (loadTiffEntry errState).error = none :=
  ⟨(C9_error_sticky errState "boom" rfl).1 [Event.next],
   (C9_error_sticky errState "boom" rfl).2.1 okPage
     (fun _ => some (List.replicate 16 1)) "1.00" (by decide),
   (C9_error_sticky errState "boom" rfl).2.2⟩
